import Mathlib

/-!
Shallow embedding of `src/Notebook.py`, a program that merges two CSV
datasets on the `symbol` column, enriches each row with a sector label
obtained from a remote chat-completion service, and asks the same
service for a final recommendation text.

Modelling choices:
* A dataframe is a column list plus ordered rows; a row is an association
  list from column name to cell text (pandas rows are name-indexed).
* The remote service is an oracle `ChatRequest → Except Err String`
  returning the text of the first response choice or failing.
* Side effects are made observable: every function that performs I/O
  returns the list of events (file-read attempts, remote API calls) it
  performed, in order, up to the point where an exception aborts it.
* Python exceptions are modelled with `Except Err`; the error taxonomy
  follows the programs failure modes (missing credential, unreadable
  file, missing column, remote failure).
-/

set_option maxRecDepth 8192

namespace StockEnrich

/-- A dataframe row: an association of column name to cell text. -/
abbrev CsvRow := List (String × String)

/-- A tabular dataset as produced by pandas `read_csv` / `merge`:
named columns and an ordered list of rows. -/
structure DataFrame where
  columns : List String
  rows : List CsvRow
deriving DecidableEq, Repr

/-- Cell access by column name; absent cells read as the empty string. -/
def cellOf (r : CsvRow) (c : String) : String :=
  (r.lookup c).getD ""

/-- Column projection `df[c]`: the cells of column `c` in row order. -/
def DataFrame.col (df : DataFrame) (c : String) : List String :=
  df.rows.map (fun r => cellOf r c)

/-- The error taxonomy of the program: missing credential, unreadable
input file, missing required column, remote service failure. -/
inductive Err
  | ConfigError
  | NotFoundError
  | FormatError
  | ServiceError
deriving DecidableEq, Repr

/-- A chat-completion request as assembled by
`client.chat.completions.create(model=..., messages=..., temperature=...)`.
Messages are (role, content) pairs; the temperature is the exact
integer value of the literal `0.0`. -/
structure ChatRequest where
  model : String
  messages : List (String × String)
  temperature : Int
deriving DecidableEq, Repr

/-- Observable effects of a run: a file read attempt or a remote call. -/
inductive Event
  | fileRead (path : String)
  | apiCall (req : ChatRequest)
deriving DecidableEq, Repr

/-- Whether an event is a remote API call. -/
def Event.isApiCall : Event → Bool
  | .apiCall _ => true
  | _ => false

/-- Number of remote API calls in a trace. -/
def countApiCalls (tr : List Event) : Nat :=
  (tr.filter Event.isApiCall).length

/-- `pd.read_csv(path)`: attempts to read the file (recorded as a
`fileRead` event); an unreadable file raises, i.e. `NotFoundError`. -/
def read_csv (fs : String → Option DataFrame) (path : String) :
    List Event × Except Err DataFrame :=
  ([.fileRead path],
    match fs path with
    | none => .error .NotFoundError
    | some df => .ok df)

/-- `nasdaq_df.merge(price_df[["symbol", "ytd"]], on="symbol", how="inner")`
once both key columns are known to exist: in left-frame row order, each
left row is matched against every right row carrying the same `symbol`
cell and extended with the `ytd` cell of that right row; left rows
without a match are dropped. -/
def mergeInner (nasdaq_df price_df : DataFrame) : DataFrame :=
  { columns := nasdaq_df.columns ++ ["ytd"],
    rows := nasdaq_df.rows.flatMap (fun ra =>
      (price_df.rows.filter
          (fun rb => cellOf rb "symbol" == cellOf ra "symbol")).map
        (fun rb => ra ++ [("ytd", cellOf rb "ytd")])) }

/-- `load_and_merge_datasets(nasdaq_file, price_change_file)`: read both
files, project `price_df[["symbol", "ytd"]]` (raising `FormatError` when a
column is absent), and inner-merge on `symbol` (raising `FormatError` when
the left frame lacks the key). -/
def load_and_merge_datasets (fs : String → Option DataFrame)
    (nasdaq_file price_change_file : String) :
    List Event × Except Err DataFrame :=
  match read_csv fs nasdaq_file with
  | (t1, .error e) => (t1, .error e)
  | (t1, .ok nasdaq_df) =>
    match read_csv fs price_change_file with
    | (t2, .error e) => (t1 ++ t2, .error e)
    | (t2, .ok price_df) =>
      if price_df.columns.contains "symbol" && price_df.columns.contains "ytd" then
        if nasdaq_df.columns.contains "symbol" then
          (t1 ++ t2, .ok (mergeInner nasdaq_df price_df))
        else (t1 ++ t2, .error .FormatError)
      else (t1 ++ t2, .error .FormatError)

/-- The fixed ten-member sector enumeration named in the classification
prompt. -/
def sectorNames : List String :=
  ["Technology", "Consumer Cyclical", "Industrials", "Utilities",
   "Healthcare", "Communication", "Energy", "Consumer Defensive",
   "Real Estate", "Financial"]

/-- The constant tail of the classification prompt (the two adjacent
string literals of the source are a single parse-time constant). -/
def classifySuffix : String :=
  " into one of the following sectors. Answer only with the sector name: Technology, Consumer Cyclical, Industrials, Utilities, Healthcare, Communication, Energy, Consumer Defensive, Real Estate, Financial."

/-- The classification prompt built by `classify_sector` for one symbol. -/
def classifyPrompt (symbol : String) : String :=
  "Classify company " ++ symbol ++ classifySuffix

/-- The chat request issued by `classify_sector` for one symbol. -/
def classifyReq (symbol : String) : ChatRequest :=
  { model := "gpt-3.5-turbo",
    messages := [("user", classifyPrompt symbol)],
    temperature := 0 }

/-- `classify_sector(symbol)`: one remote completion request; returns the
text of the first response choice, stripped of surrounding whitespace. -/
def classify_sector (svc : ChatRequest → Except Err String)
    (symbol : String) : List Event × Except Err String :=
  ([.apiCall (classifyReq symbol)],
    (svc (classifyReq symbol)).map String.trim)

/-- `df["symbol"].apply(classify_sector)`: classify each symbol in order;
the first raised exception aborts the whole traversal. -/
def applyClassify (svc : ChatRequest → Except Err String) :
    List String → List Event × Except Err (List String)
  | [] => ([], .ok [])
  | s :: rest =>
    match classify_sector svc s with
    | (t1, .error e) => (t1, .error e)
    | (t1, .ok sec) =>
      match applyClassify svc rest with
      | (t2, r2) => (t1 ++ t2, r2.map (fun secs => sec :: secs))

/-- One cell assignment inside a column assignment: drop any previous
binding of `c` and bind `c` to `v`. -/
def CsvRow.setCell (r : CsvRow) (c v : String) : CsvRow :=
  (r.filter (fun p => p.1 != c)) ++ [(c, v)]

/-- Column assignment `df[c] = vals` (pandas semantics: the column is
replaced when present, appended on the right otherwise). -/
def DataFrame.setCol (df : DataFrame) (c : String) (vals : List String) :
    DataFrame :=
  { columns := if df.columns.contains c then df.columns
               else df.columns ++ [c],
    rows := (df.rows.zip vals).map (fun p => CsvRow.setCell p.1 c p.2) }

/-- `enrich_sector_information(df)`: classify every symbol, then assign
the new `Sector` column. The middle component is the state of the caller
table after the call: `df["Sector"] = ...` executes only if every
per-record classification succeeded, so on failure the table is the
unchanged input. -/
def enrich_sector_information (svc : ChatRequest → Except Err String)
    (df : DataFrame) : List Event × DataFrame × Except Err DataFrame :=
  match applyClassify svc (df.col "symbol") with
  | (tr, .error e) => (tr, df, .error e)
  | (tr, .ok sectors) =>
    (tr, df.setCol "Sector" sectors, .ok (df.setCol "Sector" sectors))

/-- `df.to_string(index=False)`: a flat textual serialization of the
whole table, columns then rows. -/
def DataFrame.toFlatString (df : DataFrame) : String :=
  String.intercalate " " df.columns ++
    String.join (df.rows.map (fun r =>
      "\n" ++ String.intercalate " " (df.columns.map (fun c => cellOf r c))))

/-- The summarization prompt built by `get_stock_recommendations`. -/
def recommendPrompt (df : DataFrame) : String :=
  "Provide summary information about Nasdaq-100 stock performance year to date (YTD), " ++
  "recommending the three best sectors and three or more companies per sector. " ++
  "Company data: " ++ df.toFlatString

/-- The chat request issued by `get_stock_recommendations`. -/
def recommendReq (df : DataFrame) : ChatRequest :=
  { model := "gpt-3.5-turbo",
    messages := [("user", recommendPrompt df)],
    temperature := 0 }

/-- `get_stock_recommendations(df)`: one remote completion request over
the serialized table; returns the stripped first-choice text. -/
def get_stock_recommendations (svc : ChatRequest → Except Err String)
    (df : DataFrame) : List Event × Except Err String :=
  ([.apiCall (recommendReq df)],
    (svc (recommendReq df)).map String.trim)

/-- The whole program: the module-level client initialization reads the
credential from the environment (a missing key raises before anything
else runs), then `main` loads and merges the datasets, enriches them,
and requests recommendations. Returns the events performed and the final
result or the error that terminated the run. -/
def mainProgram (env : String → Option String)
    (fs : String → Option DataFrame)
    (svc : ChatRequest → Except Err String) :
    List Event × Except Err String :=
  match env "OPENAI_API_KEY" with
  | none => ([], .error .ConfigError)
  | some _ =>
    match load_and_merge_datasets fs "nasdaq100.csv" "nasdaq100_price_change.csv" with
    | (t1, .error e) => (t1, .error e)
    | (t1, .ok df) =>
      match enrich_sector_information svc df with
      | (t2, _, .error e) => (t1 ++ t2, .error e)
      | (t2, _, .ok enriched) =>
        match get_stock_recommendations svc enriched with
        | (t3, r3) => (t1 ++ t2 ++ t3, r3)

/-! ### Helper lemmas about association-list lookup -/

theorem lookup_append_pair (l1 l2 : CsvRow) (c : String) :
    List.lookup c (l1 ++ l2) =
      ((List.lookup c l1).orElse (fun _ => List.lookup c l2)) := by
  induction l1 with
  | nil => simp
  | cons p t ih =>
    cases hp : (c == p.1) <;> simp [List.lookup, hp, ih, Option.orElse]

theorem cellOf_append_ne (r : CsvRow) (c c2 v : String)
    (h : (c == c2) = false) :
    cellOf (r ++ [(c2, v)]) c = cellOf r c := by
  simp [cellOf, lookup_append_pair, List.lookup, h]

theorem lookup_filter_self (r : CsvRow) (c : String) :
    List.lookup c (r.filter (fun p => p.1 != c)) = none := by
  induction r with
  | nil => rfl
  | cons p t ih =>
    by_cases hp : p.1 = c
    · simp [List.filter, hp, ih]
    · have hb : (p.1 != c) = true := by simp [bne, hp]
      have hcb : (c == p.1) = false := by
        simp [beq_iff_eq]
        exact fun hcc => hp hcc.symm
      simp [List.filter, hb, List.lookup, hcb, ih]

theorem lookup_filter_ne (r : CsvRow) (c c2 : String)
    (h : (c2 == c) = false) :
    List.lookup c2 (r.filter (fun p => p.1 != c)) = List.lookup c2 r := by
  induction r with
  | nil => rfl
  | cons p t ih =>
    by_cases hp : p.1 = c
    · have hcb : (c2 == p.1) = false := by
        rw [hp]; exact h
      simp [List.filter, hp, List.lookup, hcb, h, ih]
    · have hb : (p.1 != c) = true := by simp [bne, hp]
      simp [List.filter, hb, List.lookup, ih]

theorem cellOf_setCell_same (r : CsvRow) (c v : String) :
    cellOf (CsvRow.setCell r c v) c = v := by
  simp [cellOf, CsvRow.setCell, lookup_append_pair, lookup_filter_self,
    List.lookup, Option.orElse]

theorem cellOf_setCell_ne (r : CsvRow) (c c2 v : String)
    (h : (c2 == c) = false) :
    cellOf (CsvRow.setCell r c v) c2 = cellOf r c2 := by
  simp [cellOf, CsvRow.setCell, lookup_append_pair, lookup_filter_ne _ _ _ h,
    List.lookup, h]

/-! ### Helper lemmas about the classification traversal -/

theorem applyClassify_ok (g : ChatRequest → String) (syms : List String) :
    applyClassify (fun req => .ok (g req)) syms =
      (syms.map (fun s => .apiCall (classifyReq s)),
       .ok (syms.map (fun s => (g (classifyReq s)).trim))) := by
  induction syms with
  | nil => rfl
  | cons s t ih => simp [applyClassify, classify_sector, Except.map, ih]

theorem applyClassify_first_fail (svc : ChatRequest → Except Err String)
    (syms : List String) (i : Nat) (s : String) (e : Err)
    (hpre : ∀ k sk, k < i → syms[k]? = some sk →
      ∃ v, svc (classifyReq sk) = .ok v)
    (hi : syms[i]? = some s)
    (he : svc (classifyReq s) = .error e) :
    applyClassify svc syms =
      (((syms.take (i + 1)).map (fun x => .apiCall (classifyReq x))),
       .error e) := by
  induction syms generalizing i with
  | nil => simp at hi
  | cons s0 t ih =>
    cases i with
    | zero =>
      simp at hi
      subst hi
      simp [applyClassify, classify_sector, he, Except.map]
    | succ j =>
      obtain ⟨v, hv⟩ := hpre 0 s0 (Nat.succ_pos j) (by simp)
      have hrec := ih j
        (fun k sk hk hks => hpre (k + 1) sk (Nat.succ_lt_succ hk) (by simpa using hks))
        (by simpa using hi)
      simp [applyClassify, classify_sector, hv, Except.map, hrec]

theorem applyClassify_fail_of_mem (svc : ChatRequest → Except Err String)
    (syms : List String) (s : String)
    (hs : s ∈ syms) (hfail : ∀ v, svc (classifyReq s) ≠ .ok v) :
    ∃ e, (applyClassify svc syms).2 = .error e := by
  induction syms with
  | nil => simp at hs
  | cons s0 t ih =>
    cases hv : svc (classifyReq s0) with
    | error e => exact ⟨e, by simp [applyClassify, classify_sector, hv, Except.map]⟩
    | ok v =>
      rcases List.mem_cons.mp hs with h0 | hmem
      · exact absurd hv (by rw [h0] at hfail; exact hfail v)
      · obtain ⟨e, he⟩ := ih hmem
        refine ⟨e, ?_⟩
        rcases hrec : applyClassify svc t with ⟨t2, r2⟩
        rw [hrec] at he
        simp at he
        simp [applyClassify, classify_sector, hv, Except.map, hrec, he]

/-! ### Helper lemmas about column assignment -/

theorem setCol_rows_length (df : DataFrame) (c : String) (vals : List String)
    (h : vals.length = df.rows.length) :
    (df.setCol c vals).rows.length = df.rows.length := by
  simp [DataFrame.setCol, h]

theorem setCol_col_same (df : DataFrame) (c : String) (vals : List String)
    (h : vals.length = df.rows.length) :
    (df.setCol c vals).col c = vals := by
  show ((df.rows.zip vals).map (fun p => CsvRow.setCell p.1 c p.2)).map
      (fun r => cellOf r c) = vals
  rw [List.map_map]
  have hfun : ((fun r => cellOf r c) ∘
        fun p : CsvRow × String => CsvRow.setCell p.1 c p.2)
      = Prod.snd := by
    funext p
    exact cellOf_setCell_same p.1 c p.2
  rw [hfun]
  exact List.map_snd_zip _ _ (le_of_eq h)

theorem setCol_col_ne (df : DataFrame) (c c2 : String) (vals : List String)
    (hne : (c2 == c) = false) (h : vals.length = df.rows.length) :
    (df.setCol c vals).col c2 = df.col c2 := by
  have hfun : (fun p : CsvRow × String => cellOf (CsvRow.setCell p.1 c p.2) c2)
      = fun p : CsvRow × String => cellOf p.1 c2 := by
    funext p
    exact cellOf_setCell_ne p.1 c c2 p.2 hne
  have hfst : (df.rows.zip vals).map Prod.fst = df.rows :=
    List.map_fst_zip _ _ (ge_of_eq h)
  calc (df.setCol c vals).col c2
      = ((df.rows.zip vals).map Prod.fst).map (fun r => cellOf r c2) := by
        simp [DataFrame.setCol, DataFrame.col, List.map_map]
        intro a b _
        exact cellOf_setCell_ne a c c2 b hne
    _ = df.col c2 := by rw [hfst]; rfl

theorem setCol_columns_new (df : DataFrame) (c : String) (vals : List String)
    (h : df.columns.contains c = false) :
    (df.setCol c vals).columns = df.columns ++ [c] := by
  have hc : c ∉ df.columns := by simpa using h
  simp [DataFrame.setCol, hc]

/-! ### The successful enrichment run, in closed form -/

theorem enrich_ok_eq (g : ChatRequest → String) (df : DataFrame) :
    enrich_sector_information (fun req => .ok (g req)) df =
      ((df.col "symbol").map (fun s => .apiCall (classifyReq s)),
       df.setCol "Sector" ((df.col "symbol").map (fun s => (g (classifyReq s)).trim)),
       .ok (df.setCol "Sector"
         ((df.col "symbol").map (fun s => (g (classifyReq s)).trim)))) := by
  simp [enrich_sector_information, applyClassify_ok]

theorem col_length (df : DataFrame) (c : String) :
    (df.col c).length = df.rows.length := by
  simp [DataFrame.col]

/-! ### Helper lemmas about loading and merging -/

theorem load_ok_elim (fs : String → Option DataFrame) (fa fb : String)
    (A B merged : DataFrame)
    (hA : fs fa = some A) (hB : fs fb = some B)
    (hok : (load_and_merge_datasets fs fa fb).2 = .ok merged) :
    merged = mergeInner A B
    ∧ B.columns.contains "symbol" = true
    ∧ B.columns.contains "ytd" = true
    ∧ A.columns.contains "symbol" = true := by
  unfold load_and_merge_datasets read_csv at hok
  rw [hA, hB] at hok
  dsimp only at hok
  split at hok
  · split at hok
    · rename_i h1 h2
      rcases Bool.and_eq_true _ _ |>.mp h1 with ⟨h1a, h1b⟩
      exact ⟨(Except.ok.inj hok).symm, h1a, h1b, h2⟩
    · simp at hok
  · simp at hok

theorem load_trace_cases (fs : String → Option DataFrame) (fa fb : String) :
    (load_and_merge_datasets fs fa fb).1 = [.fileRead fa]
    ∨ (load_and_merge_datasets fs fa fb).1 = [.fileRead fa, .fileRead fb] := by
  unfold load_and_merge_datasets read_csv
  cases fs fa with
  | none => exact Or.inl rfl
  | some A =>
    cases fs fb with
    | none => exact Or.inr rfl
    | some B =>
      dsimp only
      split
      · split
        · exact Or.inr rfl
        · exact Or.inr rfl
      · exact Or.inr rfl

theorem load_trace_no_api (fs : String → Option DataFrame) (fa fb : String) :
    countApiCalls (load_and_merge_datasets fs fa fb).1 = 0 := by
  rcases load_trace_cases fs fa fb with h | h <;> rw [h] <;> rfl

theorem load_notfound (fs : String → Option DataFrame) (fa fb : String)
    (h : fs fa = none ∨ fs fb = none) :
    (load_and_merge_datasets fs fa fb).2 = .error .NotFoundError := by
  unfold load_and_merge_datasets read_csv
  rcases h with h | h
  · rw [h]
  · cases fs fa with
    | none => rfl
    | some A => rw [h]

theorem load_format (fs : String → Option DataFrame) (fa fb : String)
    (A B : DataFrame)
    (hA : fs fa = some A) (hB : fs fb = some B)
    (h : A.columns.contains "symbol" = false
       ∨ B.columns.contains "symbol" = false
       ∨ B.columns.contains "ytd" = false) :
    (load_and_merge_datasets fs fa fb).2 = .error .FormatError := by
  unfold load_and_merge_datasets read_csv
  rw [hA, hB]
  dsimp only
  split
  · split
    · rename_i h1 h2
      rcases Bool.and_eq_true _ _ |>.mp h1 with ⟨h1a, h1b⟩
      rcases h with h | h | h <;> simp_all
    · rfl
  · rfl

/-! ### Helper lemmas about the whole program -/

theorem countApi_append (t1 t2 : List Event) :
    countApiCalls (t1 ++ t2) = countApiCalls t1 + countApiCalls t2 := by
  simp [countApiCalls, List.filter_append]

theorem countApi_map_apiCall (l : List String) (f : String → ChatRequest) :
    countApiCalls (l.map (fun s => .apiCall (f s))) = l.length := by
  induction l with
  | nil => rfl
  | cons s t ih =>
    simp only [List.map_cons, countApiCalls, List.filter] at *
    simp [Event.isApiCall, ih]

theorem mainProgram_load_error (env : String → Option String)
    (fs : String → Option DataFrame) (svc : ChatRequest → Except Err String)
    (k : String) (e : Err)
    (hk : env "OPENAI_API_KEY" = some k)
    (hload : (load_and_merge_datasets fs "nasdaq100.csv"
      "nasdaq100_price_change.csv").2 = .error e) :
    (mainProgram env fs svc).2 = .error e
    ∧ countApiCalls (mainProgram env fs svc).1 = 0 := by
  unfold mainProgram
  rw [hk]
  cases hL : load_and_merge_datasets fs "nasdaq100.csv"
      "nasdaq100_price_change.csv" with
  | mk t1 r1 =>
    rw [hL] at hload
    dsimp only at hload
    subst hload
    refine ⟨rfl, ?_⟩
    have h0 := load_trace_no_api fs "nasdaq100.csv" "nasdaq100_price_change.csv"
    rw [hL] at h0
    exact h0

theorem mainProgram_ok_calls (env : String → Option String)
    (fs : String → Option DataFrame) (k : String)
    (g : ChatRequest → String) (df : DataFrame)
    (hk : env "OPENAI_API_KEY" = some k)
    (hload : (load_and_merge_datasets fs "nasdaq100.csv"
      "nasdaq100_price_change.csv").2 = .ok df) :
    countApiCalls (mainProgram env fs (fun req => .ok (g req))).1
      = df.rows.length + 1
    ∧ ∃ out, (mainProgram env fs (fun req => .ok (g req))).2 = .ok out := by
  unfold mainProgram
  rw [hk]
  cases hL : load_and_merge_datasets fs "nasdaq100.csv"
      "nasdaq100_price_change.csv" with
  | mk t1 r1 =>
    rw [hL] at hload
    dsimp only at hload
    subst hload
    have h0 := load_trace_no_api fs "nasdaq100.csv" "nasdaq100_price_change.csv"
    rw [hL] at h0
    dsimp only
    rw [enrich_ok_eq g df]
    dsimp only [get_stock_recommendations]
    constructor
    · rw [countApi_append, countApi_append, h0, countApi_map_apiCall, col_length]
      simp [countApiCalls, Event.isApiCall]
    · exact ⟨_, rfl⟩

/-! ### Inner-join membership -/

theorem mergeInner_col_symbol_mem (A B : DataFrame) (s : String) :
    s ∈ (mergeInner A B).col "symbol"
      ↔ (s ∈ A.col "symbol" ∧ s ∈ B.col "symbol") := by
  have hyne : (("symbol" : String) == "ytd") = false := by decide
  simp only [mergeInner, DataFrame.col, List.mem_map, List.mem_flatMap,
    List.mem_filter]
  constructor
  · rintro ⟨r, ⟨ra, hra, rb, ⟨hrbB, hbeq⟩, hreq⟩, hcell⟩
    subst hreq
    rw [cellOf_append_ne _ _ _ _ hyne] at hcell
    have hbb : cellOf rb "symbol" = cellOf ra "symbol" := eq_of_beq hbeq
    exact ⟨⟨ra, hra, hcell⟩, ⟨rb, hrbB, by rw [hbb, hcell]⟩⟩
  · rintro ⟨⟨ra, hra, hcellA⟩, ⟨rb, hrb, hcellB⟩⟩
    refine ⟨ra ++ [("ytd", cellOf rb "ytd")],
      ⟨ra, hra, rb, ⟨hrb, ?_⟩, rfl⟩, ?_⟩
    · simp [hcellA, hcellB]
    · rw [cellOf_append_ne _ _ _ _ hyne]
      exact hcellA

/-! ### Concrete example data for witnesses -/

/-- Spec example, first table: symbols AAPL, MSFT, GOOG. -/
def exTableA : DataFrame :=
  { columns := ["symbol", "name"],
    rows := [[("symbol", "AAPL"), ("name", "Apple")],
             [("symbol", "MSFT"), ("name", "Microsoft")],
             [("symbol", "GOOG"), ("name", "Alphabet")]] }

/-- Spec example, second table: symbols AAPL, GOOG, TSLA. -/
def exTableB : DataFrame :=
  { columns := ["symbol", "ytd"],
    rows := [[("symbol", "AAPL"), ("ytd", "12.5")],
             [("symbol", "GOOG"), ("ytd", "8.1")],
             [("symbol", "TSLA"), ("ytd", "-3.0")]] }

/-- A file system holding the two example tables under the expected names. -/
def exFiles : String → Option DataFrame := fun f =>
  if f = "nasdaq100.csv" then some exTableA
  else if f = "nasdaq100_price_change.csv" then some exTableB
  else none

/-- The merged example table: two rows, AAPL and GOOG. -/
def exMerged : DataFrame := mergeInner exTableA exTableB

/-- An environment carrying the credential. -/
def envEx : String → Option String := fun k =>
  if k = "OPENAI_API_KEY" then some "sk-test" else none

/-- An environment with no credential set. -/
def envNone : String → Option String := fun _ => none

/-- A deterministic classifier stand-in returning a fixed label. -/
def svcTech : ChatRequest → Except Err String := fun _ => .ok "Technology"

/-- A service stub that always fails. -/
def svcFailEx : ChatRequest → Except Err String := fun _ => .error .ServiceError

/-- A file system with no readable file. -/
def exFilesMissing : String → Option DataFrame := fun _ => none

/-- A first table lacking the join key column. -/
def exTableNoCol : DataFrame := { columns := ["name"], rows := [] }

/-- A file system whose first table lacks the join key column. -/
def exFilesNoCol : String → Option DataFrame := fun f =>
  if f = "nasdaq100.csv" then some exTableNoCol
  else if f = "nasdaq100_price_change.csv" then some exTableB
  else none

/-- Another table containing AAPL, at a different position. -/
def exTableC : DataFrame :=
  { columns := ["symbol"],
    rows := [[("symbol", "ZZZ")], [("symbol", "AAPL")]] }

/-! ### Claim theorems -/

/-- C1: for every pair of input tables that each contain the join key
column, the table merged by `load_and_merge_datasets` contains exactly
the identifiers present in both inputs: an identifier is in the result
iff it appears in both sources (inner-join, no-invention). -/
theorem load_and_merge_inner_join_identifiers
    (fs : String → Option DataFrame) (fa fb : String)
    (A B merged : DataFrame) (s : String)
    (hA : fs fa = some A) (hB : fs fb = some B)
    (hok : (load_and_merge_datasets fs fa fb).2 = .ok merged) :
    s ∈ merged.col "symbol" ↔ (s ∈ A.col "symbol" ∧ s ∈ B.col "symbol") := by
  obtain ⟨hm, -, -, -⟩ := load_ok_elim fs fa fb A B merged hA hB hok
  rw [hm]
  exact mergeInner_col_symbol_mem A B s

/-- C1 witness: with the spec example tables, AAPL is merged because it
appears in both inputs. -/
theorem load_and_merge_inner_join_identifiers_witness :
    "AAPL" ∈ exMerged.col "symbol" :=
  (load_and_merge_inner_join_identifiers exFiles "nasdaq100.csv"
    "nasdaq100_price_change.csv" exTableA exTableB exMerged "AAPL"
    rfl rfl rfl).mpr ⟨by decide, by decide⟩

/-- C2: if the classification of the record at index `i` fails while all
earlier ones succeed, `enrich_sector_information` aborts there: the
result is that error (no partially-enriched table) and the calls made
stop at record `i` (no skip-and-continue). -/
theorem enrich_aborts_on_first_failure
    (svc : ChatRequest → Except Err String) (df : DataFrame)
    (i : Nat) (s : String) (e : Err)
    (hpre : ∀ k sk, k < i → (df.col "symbol")[k]? = some sk →
      ∃ v, svc (classifyReq sk) = .ok v)
    (hi : (df.col "symbol")[i]? = some s)
    (he : svc (classifyReq s) = .error e) :
    (enrich_sector_information svc df).2.2 = .error e
    ∧ (enrich_sector_information svc df).1
        = ((df.col "symbol").take (i + 1)).map
            (fun x => .apiCall (classifyReq x)) := by
  have h := applyClassify_first_fail svc (df.col "symbol") i s e hpre hi he
  unfold enrich_sector_information
  rw [h]
  exact ⟨rfl, rfl⟩

/-- C2 witness: a stub that always fails aborts the enrichment of the
two-row example table at its first record. -/
theorem enrich_aborts_on_first_failure_witness :
    (enrich_sector_information svcFailEx exMerged).2.2
        = .error .ServiceError
    ∧ (enrich_sector_information svcFailEx exMerged).1
        = [.apiCall (classifyReq "AAPL")] := by
  have h := enrich_aborts_on_first_failure svcFailEx exMerged 0 "AAPL"
    .ServiceError
    (fun k sk hk _ => absurd hk (Nat.not_lt_zero k))
    (by decide) rfl
  exact ⟨h.1, h.2.trans rfl⟩

/-- C3: with a deterministic classifier stand-in that always answers,
`enrich_sector_information` issues exactly one classification request
per record, with that record identifier, in table order, and stores the
returned (trimmed) label as the Sector cell of that record. -/
theorem enrich_one_call_per_record_in_order
    (g : ChatRequest → String) (df : DataFrame) :
    (enrich_sector_information (fun req => .ok (g req)) df).1
      = (df.col "symbol").map (fun s => .apiCall (classifyReq s))
    ∧ (enrich_sector_information (fun req => .ok (g req)) df).2.2
        = .ok ((enrich_sector_information (fun req => .ok (g req)) df).2.1)
    ∧ ((enrich_sector_information (fun req => .ok (g req)) df).2.1).col "Sector"
        = (df.col "symbol").map (fun s => (g (classifyReq s)).trim) := by
  rw [enrich_ok_eq g df]
  refine ⟨rfl, rfl, ?_⟩
  exact setCol_col_same df "Sector" _ (by rw [List.length_map, col_length])

/-- C4 counterexample: a complete successful run over a two-record
merged table consumes 3 remote calls, not 2 * 2 + 1 = 5 as the claim
states: `classify_sector` issues one request per record, not two. -/
theorem run_api_calls_not_two_per_record :
    (load_and_merge_datasets exFiles "nasdaq100.csv"
      "nasdaq100_price_change.csv").2 = .ok exMerged
    ∧ exMerged.rows.length = 2
    ∧ ((mainProgram envEx exFiles svcTech).2).isOk = true
    ∧ countApiCalls (mainProgram envEx exFiles svcTech).1 = 3
    ∧ ¬ countApiCalls (mainProgram envEx exFiles svcTech).1
          = 2 * exMerged.rows.length + 1 := by
  refine ⟨rfl, rfl, ?_, ?_, ?_⟩ <;> decide

/-- C4 (amended): across one complete successful run over a merged table
of N records, the remote API is consumed once per record during
enrichment plus once at the end, N + 1 calls in total. -/
theorem run_total_api_calls_amended
    (env : String → Option String) (fs : String → Option DataFrame)
    (k : String) (g : ChatRequest → String) (df : DataFrame)
    (hk : env "OPENAI_API_KEY" = some k)
    (hload : (load_and_merge_datasets fs "nasdaq100.csv"
      "nasdaq100_price_change.csv").2 = .ok df) :
    countApiCalls (mainProgram env fs (fun req => .ok (g req))).1
      = df.rows.length + 1 :=
  (mainProgram_ok_calls env fs k g df hk hload).1

/-- C4 witness: the example run makes 2 + 1 = 3 remote calls. -/
theorem run_total_api_calls_amended_witness :
    countApiCalls (mainProgram envEx exFiles
      (fun req => .ok ((fun _ => "Technology") req))).1
      = exMerged.rows.length + 1 :=
  run_total_api_calls_amended envEx exFiles "sk-test"
    (fun _ => "Technology") exMerged rfl rfl

/-- C5: if the credential environment variable is absent, the program
fails with ConfigError immediately: the event trace is empty, so no
file read or remote call was performed. -/
theorem missing_credential_fails_before_io
    (env : String → Option String) (fs : String → Option DataFrame)
    (svc : ChatRequest → Except Err String)
    (h : env "OPENAI_API_KEY" = none) :
    mainProgram env fs svc = ([], .error .ConfigError) := by
  unfold mainProgram
  rw [h]

/-- C5 witness: with no credential set, the run performs nothing. -/
theorem missing_credential_fails_before_io_witness :
    mainProgram envNone exFiles svcTech = ([], .error .ConfigError) :=
  missing_credential_fails_before_io envNone exFiles svcTech rfl

/-- C6: a missing file makes `load_and_merge_datasets` fail with
NotFoundError; a missing required column (the join key in either source,
or the ytd column in the second source) makes it fail with FormatError;
either load failure aborts the run with zero remote calls, i.e. before
enrichment begins. -/
theorem load_error_taxonomy
    (fs : String → Option DataFrame) (fa fb : String) :
    ((fs fa = none ∨ fs fb = none) →
      (load_and_merge_datasets fs fa fb).2 = .error .NotFoundError)
    ∧ (∀ A B : DataFrame, fs fa = some A → fs fb = some B →
        (A.columns.contains "symbol" = false
          ∨ B.columns.contains "symbol" = false
          ∨ B.columns.contains "ytd" = false) →
        (load_and_merge_datasets fs fa fb).2 = .error .FormatError)
    ∧ (∀ (env : String → Option String)
        (svc : ChatRequest → Except Err String) (k : String) (e : Err),
        env "OPENAI_API_KEY" = some k →
        (load_and_merge_datasets fs "nasdaq100.csv"
          "nasdaq100_price_change.csv").2 = .error e →
        (mainProgram env fs svc).2 = .error e
        ∧ countApiCalls (mainProgram env fs svc).1 = 0) :=
  ⟨load_notfound fs fa fb,
   fun A B hA hB h => load_format fs fa fb A B hA hB h,
   fun env svc k e hk hl => mainProgram_load_error env fs svc k e hk hl⟩

/-- C6 witness: unreadable files give NotFoundError; a first table
without the join key gives FormatError; a load failure ends the run
with no remote call made. -/
theorem load_error_taxonomy_witness :
    (load_and_merge_datasets exFilesMissing "nasdaq100.csv"
      "nasdaq100_price_change.csv").2 = .error .NotFoundError
    ∧ (load_and_merge_datasets exFilesNoCol "nasdaq100.csv"
      "nasdaq100_price_change.csv").2 = .error .FormatError
    ∧ (mainProgram envEx exFilesMissing svcTech).2 = .error .NotFoundError
    ∧ countApiCalls (mainProgram envEx exFilesMissing svcTech).1 = 0 := by
  have h3 := (load_error_taxonomy exFilesMissing "nasdaq100.csv"
    "nasdaq100_price_change.csv").2.2 envEx svcTech "sk-test"
    .NotFoundError rfl
    ((load_error_taxonomy exFilesMissing "nasdaq100.csv"
      "nasdaq100_price_change.csv").1 (Or.inl rfl))
  exact ⟨(load_error_taxonomy exFilesMissing "nasdaq100.csv"
      "nasdaq100_price_change.csv").1 (Or.inl rfl),
    (load_error_taxonomy exFilesNoCol "nasdaq100.csv"
      "nasdaq100_price_change.csv").2.1 exTableNoCol exTableB rfl rfl
      (Or.inl (by decide)),
    h3.1, h3.2⟩

/-- The Sector cell produced for index `i` by a successful enrichment. -/
theorem enrich_ok_sector_at (g : ChatRequest → String) (df : DataFrame)
    (i : Nat) :
    (((enrich_sector_information (fun req => .ok (g req)) df).2.1).col
        "Sector")[i]?
      = ((df.col "symbol")[i]?).map (fun s => (g (classifyReq s)).trim) := by
  rw [enrich_ok_eq g df]
  dsimp only
  rw [setCol_col_same df "Sector" _ (by rw [List.length_map, col_length])]
  exact List.getElem?_map _ _ _

/-- C7: with a deterministic classifier stand-in, the sector assigned to
a record depends only on its identifier: two records with the same
identifier, in different tables and at different positions, receive the
same sector. -/
theorem enrich_sector_depends_only_on_symbol
    (g : ChatRequest → String) (df1 df2 : DataFrame) (i j : Nat) (s : String)
    (h1 : (df1.col "symbol")[i]? = some s)
    (h2 : (df2.col "symbol")[j]? = some s) :
    (((enrich_sector_information (fun req => .ok (g req)) df1).2.1).col
        "Sector")[i]?
      = (((enrich_sector_information (fun req => .ok (g req)) df2).2.1).col
        "Sector")[j]? := by
  rw [enrich_ok_sector_at, enrich_ok_sector_at, h1, h2]

/-- C7 witness: AAPL receives the same sector in the example merged
table (position 0) and in an unrelated table (position 1). -/
theorem enrich_sector_depends_only_on_symbol_witness :
    (((enrich_sector_information
        (fun req => .ok ((fun _ => "Technology") req)) exMerged).2.1).col
        "Sector")[0]?
      = (((enrich_sector_information
        (fun req => .ok ((fun _ => "Technology") req)) exTableC).2.1).col
        "Sector")[1]? :=
  enrich_sector_depends_only_on_symbol (fun _ => "Technology")
    exMerged exTableC 0 1 "AAPL" (by decide) (by decide)

/-- C8: `classify_sector` issues exactly one remote request, whose
prompt is a function of the identifier naming every member of the fixed
ten-sector enumeration, with temperature zero, a single user message,
and the stated model; on success it returns the trimmed text of the
first choice. -/
theorem classify_sector_request_contract
    (svc : ChatRequest → Except Err String) (symbol t : String)
    (h : svc (classifyReq symbol) = .ok t) :
    (classify_sector svc symbol).1 = [.apiCall (classifyReq symbol)]
    ∧ (classifyReq symbol).model = "gpt-3.5-turbo"
    ∧ (classifyReq symbol).temperature = 0
    ∧ (classifyReq symbol).messages = [("user", classifyPrompt symbol)]
    ∧ (∀ n ∈ sectorNames, n.toList <:+: (classifyPrompt symbol).toList)
    ∧ (classify_sector svc symbol).2 = .ok t.trim := by
  refine ⟨rfl, rfl, rfl, rfl, ?_, ?_⟩
  · intro n hn
    have hsuf : n.toList <:+: classifySuffix.toList := by
      fin_cases hn <;> decide
    have hsplit : (classifyPrompt symbol).toList
        = ("Classify company " ++ symbol).toList ++ classifySuffix.toList := by
      simp [classifyPrompt, String.toList, String.data_append]
    rw [hsplit]
    exact hsuf.trans (List.suffix_append _ _).isInfix
  · simp [classify_sector, h, Except.map]

/-- C8 witness: classifying AAPL with a stub answering a padded label
issues the one expected request and returns the trimmed label. -/
theorem classify_sector_request_contract_witness :
    (classify_sector (fun _ => .ok "  Technology  ") "AAPL").1
        = [.apiCall (classifyReq "AAPL")]
    ∧ ("Technology".toList <:+: (classifyPrompt "AAPL").toList)
    ∧ (classify_sector (fun _ => .ok "  Technology  ") "AAPL").2
        = .ok ("  Technology  ".trim) := by
  have h := classify_sector_request_contract (fun _ => .ok "  Technology  ")
    "AAPL" "  Technology  " rfl
  exact ⟨h.1, h.2.2.2.2.1 "Technology" (by decide), h.2.2.2.2.2⟩

/-- C9: if the classification of some record fails, the input table is
left entirely unchanged (no Sector column is assigned, no row touched)
and enrichment produces an error, never a table: the column assignment
runs only after every per-record classification has succeeded. -/
theorem enrich_failure_leaves_table_unchanged
    (svc : ChatRequest → Except Err String) (df : DataFrame) (s : String)
    (hs : s ∈ df.col "symbol")
    (hfail : ∀ v, svc (classifyReq s) ≠ .ok v) :
    (enrich_sector_information svc df).2.1 = df
    ∧ ∃ e, (enrich_sector_information svc df).2.2 = .error e := by
  obtain ⟨e, he⟩ := applyClassify_fail_of_mem svc (df.col "symbol") s hs hfail
  unfold enrich_sector_information
  cases hap : applyClassify svc (df.col "symbol") with
  | mk tr r =>
    rw [hap] at he
    dsimp only at he
    subst he
    exact ⟨rfl, e, rfl⟩

/-- C9 witness: with the always-failing stub, the example table comes
back untouched and the enrichment result is the service error. -/
theorem enrich_failure_leaves_table_unchanged_witness :
    (enrich_sector_information svcFailEx exMerged).2.1 = exMerged
    ∧ (enrich_sector_information svcFailEx exMerged).2.2
        = .error .ServiceError := by
  have h := enrich_failure_leaves_table_unchanged svcFailEx exMerged "AAPL"
    (by decide) (fun v hv => Except.noConfusion hv)
  exact ⟨h.1, rfl⟩

/-- C10: a successful enrichment preserves the number of rows, their
order and the cells of every pre-existing column; its only change is
appending the single Sector column. -/
theorem enrich_preserves_existing_data
    (g : ChatRequest → String) (df : DataFrame)
    (hS : df.columns.contains "Sector" = false) :
    ((enrich_sector_information (fun req => .ok (g req)) df).2.1).rows.length
        = df.rows.length
    ∧ ((enrich_sector_information (fun req => .ok (g req)) df).2.1).columns
        = df.columns ++ ["Sector"]
    ∧ ∀ c : String, (c == "Sector") = false →
        ((enrich_sector_information (fun req => .ok (g req)) df).2.1).col c
          = df.col c := by
  rw [enrich_ok_eq g df]
  dsimp only
  have hlen : ((df.col "symbol").map
      (fun s => (g (classifyReq s)).trim)).length = df.rows.length := by
    rw [List.length_map, col_length]
  exact ⟨setCol_rows_length df _ _ hlen, setCol_columns_new df _ _ hS,
    fun c hc => setCol_col_ne df "Sector" c _ hc hlen⟩

/-- C10 witness: enriching the example table keeps both rows, appends
the Sector column, and leaves the ytd column untouched. -/
theorem enrich_preserves_existing_data_witness :
    ((enrich_sector_information
        (fun req => .ok ((fun _ => "Technology") req)) exMerged).2.1).rows.length
        = exMerged.rows.length
    ∧ ((enrich_sector_information
        (fun req => .ok ((fun _ => "Technology") req)) exMerged).2.1).columns
        = exMerged.columns ++ ["Sector"]
    ∧ ((enrich_sector_information
        (fun req => .ok ((fun _ => "Technology") req)) exMerged).2.1).col "ytd"
        = exMerged.col "ytd" := by
  have h := enrich_preserves_existing_data (fun _ => "Technology") exMerged
    (by decide)
  exact ⟨h.1, h.2.1, h.2.2 "ytd" (by decide)⟩

end StockEnrich
